import Mathlib

/-!
Verification of the NarrativeVerse NPC dialogue engine (src/engine.py).

The Python `Engine` class is shallowly embedded: dictionaries become
association lists preserving insertion order, floats become `Rat` (all
values produced by the code are exact halves), every call to the `random`
module becomes an explicit seed parameter, and the one fallible list index
(`alignment.split()[...]`) is modelled with `Option`.
-/

/- ## Python string primitives -/

/-- The character `{`. -/
def openBrace : Char := Char.ofNat 123

/-- The character `}`. -/
def closeBrace : Char := Char.ofNat 125

/-- Does `pat` occur at the head of `s`?  (Prefix test on char lists.) -/
def startsWithL : List Char → List Char → Bool
  | [], _ => true
  | _ :: _, [] => false
  | a :: as, b :: bs => a == b && startsWithL as bs

/-- Substring occurrence test on char lists: Python's `pat in s`. -/
def containsL (pat : List Char) : List Char → Bool
  | [] => pat.isEmpty
  | c :: cs => startsWithL pat (c :: cs) || containsL pat cs

/-- Python's `needle in hay` on strings (substring containment). -/
def pyIn (needle hay : String) : Bool := containsL needle.data hay.data

/-- Python's `str.lower()` (the engine only lowercases ASCII text). -/
def pyLower (s : String) : String := String.mk (s.data.map Char.toLower)

/-- Worker for whitespace splitting: Python's `str.split()` drops empty
pieces; `acc` holds the current word reversed. -/
def wordsAux : List Char → List Char → List (List Char)
  | [], acc => if acc.isEmpty then [] else [acc.reverse]
  | c :: cs, acc =>
    if c.isWhitespace then
      if acc.isEmpty then wordsAux cs [] else acc.reverse :: wordsAux cs []
    else wordsAux cs (c :: acc)

/-- Python's `str.split()` with no separator: split on whitespace runs,
dropping empty pieces. -/
def pySplitWs (s : String) : List String := (wordsAux s.data []).map String.mk

/-- Worker for single-character splitting: Python's `str.split(sep)` keeps
empty pieces. -/
def splitCharAux (sep : Char) : List Char → List Char → List (List Char)
  | [], acc => [acc.reverse]
  | c :: cs, acc =>
    if c == sep then acc.reverse :: splitCharAux sep cs []
    else splitCharAux sep cs (c :: acc)

/-- Python's `str.split(sep)` for a one-character separator. -/
def pySplitChar (s : String) (sep : Char) : List String :=
  (splitCharAux sep s.data []).map String.mk

/-- Python's `str.strip()` on char lists. -/
def stripL (l : List Char) : List Char :=
  ((l.dropWhile Char.isWhitespace).reverse.dropWhile Char.isWhitespace).reverse

/-- One step of Python's `str.replace`: replace every occurrence of `pat`
(nonempty in all uses here) by `val`, scanning left to right. -/
def replaceL (pat val : List Char) : List Char → List Char
  | [] => []
  | c :: cs =>
    if h : pat.isEmpty = false ∧ startsWithL pat (c :: cs) = true then
      val ++ replaceL pat val (List.drop pat.length (c :: cs))
    else
      c :: replaceL pat val cs
termination_by l => l.length
decreasing_by
  · simp only [List.length_drop, List.length_cons]
    have hp : pat ≠ [] := by
      intro hnil; rw [hnil] at h; simp at h
    have : 0 < pat.length := List.length_pos.mpr hp
    omega
  · simp

/-- Python's `str.replace(pat, val)` on strings. -/
def pyReplace (s pat val : String) : String :=
  String.mk (replaceL pat.data val.data s.data)

/-- Python's `random.choice(l)`: the element at a seed-determined index. -/
def pyChoice (seed : Nat) (l : List String) : String := l.getD (seed % l.length) ""

/-- Python's `random.sample(pool, n)`: draw `n` items without replacement,
each draw picking a seed-determined index among the remaining items. -/
def pySample : List Nat → List String → Nat → List String
  | _, _, 0 => []
  | seeds, pool, n + 1 =>
    match pool with
    | [] => []
    | _ :: _ =>
      let i := seeds.headD 0 % pool.length
      pool.getD i "" :: pySample seeds.tail (pool.eraseIdx i) n

/- ## Data model (engine.py lines 23-46, 254-259) -/

/-- One record appended by `update_player_relationship`
(engine.py lines 274-279). -/
structure InteractionRec where
  action : String
  context : String
  sentiment : Rat
  timestamp : String
deriving DecidableEq, Repr

/-- Per-NPC relationship state (engine.py lines 254-259). -/
structure RelState where
  affinity : Rat
  trust : Rat
  interactions : List InteractionRec
deriving DecidableEq, Repr

/-- An NPC profile record as consumed by the engine: the fields accessed by
engine.py.  `className` renders the profile key `"class"`; the two dict
fields are association lists in insertion order. -/
structure NPCProfile where
  name : String
  className : String
  alignment : String
  personality_traits : List (String × Rat)
  backstory : String
  interaction_style : List (String × String)
deriving DecidableEq, Repr

/-- The engine state: the loaded profile list and the mutable
`relationship_states` dict (an association list in insertion order). -/
structure Engine where
  npcs : List NPCProfile
  relationship_states : List (String × RelState)
deriving DecidableEq, Repr

/-- Python dict lookup on an association list (first match). -/
def alookup {α : Type} : List (String × α) → String → Option α
  | [], _ => none
  | p :: ps, k => if p.1 = k then some p.2 else alookup ps k

/-- Python dict assignment `m[k] = v`: replace in place, else append. -/
def setState : List (String × RelState) → String → RelState → List (String × RelState)
  | [], k, v => [(k, v)]
  | p :: ps, k, v => if p.1 = k then (k, v) :: ps else p :: setState ps k v

/-- `next((npc for npc in ... if npc["name"] == npc_name), None)`
(engine.py lines 111-112 and 322-323). -/
def findNPC (e : Engine) (npc_name : String) : Option NPCProfile :=
  e.npcs.find? (fun p => p.name == npc_name)

/- ## Sentiment scorer (engine.py lines 281-303) -/

/-- The fixed positive keyword list (engine.py line 289). -/
def positive_keywords : List String :=
  ["help", "save", "protect", "agree", "gift", "compliment"]

/-- The fixed negative keyword list (engine.py line 290). -/
def negative_keywords : List String :=
  ["attack", "steal", "lie", "threaten", "insult", "refuse"]

/-- `_analyze_player_action`: +2 per positive keyword occurring in the
lowercased action, -2 per negative keyword, clamped to [-10, 10]
(engine.py lines 281-303). -/
def analyzePlayerAction (action : String) : Rat :=
  let action_lower := pyLower action
  let score : Rat :=
    positive_keywords.foldl (fun s w => if pyIn w action_lower then s + 2 else s) 0
  let score :=
    negative_keywords.foldl (fun s w => if pyIn w action_lower then s - 2 else s) score
  max (-10) (min 10 score)

/-- Number of distinct positive keywords occurring in the lowercased text. -/
def posMatches (action : String) : Nat :=
  positive_keywords.countP (fun w => pyIn w (pyLower action))

/-- Number of distinct negative keywords occurring in the lowercased text. -/
def negMatches (action : String) : Nat :=
  negative_keywords.countP (fun w => pyIn w (pyLower action))

/- ## Relationship ledger (engine.py lines 242-279) -/

/-- The body of `update_player_relationship` once the state exists: score the
action, clamp affinity and trust into [0, 100], append one record
(engine.py lines 261-279). -/
def stepRel (st : RelState) (player_action context : String) : RelState :=
  let score := analyzePlayerAction player_action
  { affinity := max 0 (min 100 (st.affinity + score)),
    trust := max 0 (min 100 (st.trust + score * (0.5 : Rat))),
    interactions :=
      st.interactions ++ [⟨player_action, context, score, "simulated_timestamp"⟩] }

/-- `update_player_relationship`: lazily initialise the entry to the 50/50
baseline, then apply the scored update (engine.py lines 242-279). -/
def updatePlayerRelationship (e : Engine) (npc_name player_action context : String) :
    Engine :=
  let st0 := (alookup e.relationship_states npc_name).getD
    { affinity := 50, trust := 50, interactions := [] }
  { e with relationship_states :=
      setState e.relationship_states npc_name (stepRel st0 player_action context) }

/-- A finite sequence of `update_player_relationship` calls,
each `(npc_name, player_action, context)`. -/
def applyUpdates (e : Engine) (l : List (String × String × String)) : Engine :=
  l.foldl (fun acc u => updatePlayerRelationship acc u.1 u.2.1 u.2.2) e

/- ## Helper lemmas for the sentiment scorer -/

theorem foldl_if_add (l : List String) (p : String → Bool) (a : Rat) :
    l.foldl (fun s w => if p w then s + 2 else s) a = a + 2 * (l.countP p : Rat) := by
  induction l generalizing a with
  | nil => simp
  | cons x xs ih =>
    by_cases h : p x
    · simp only [List.foldl_cons, h, if_true, ih, List.countP_cons, h]
      push_cast
      ring
    · simp only [List.foldl_cons, h, if_false, ih, List.countP_cons, h]
      simp

theorem foldl_if_sub (l : List String) (p : String → Bool) (a : Rat) :
    l.foldl (fun s w => if p w then s - 2 else s) a = a - 2 * (l.countP p : Rat) := by
  induction l generalizing a with
  | nil => simp
  | cons x xs ih =>
    by_cases h : p x
    · simp only [List.foldl_cons, h, if_true, ih, List.countP_cons, h]
      push_cast
      ring
    · simp only [List.foldl_cons, h, if_false, ih, List.countP_cons, h]
      simp

theorem analyze_eq_clamp (action : String) :
    analyzePlayerAction action =
      max (-10) (min 10 (2 * (posMatches action : Rat) - 2 * (negMatches action : Rat))) := by
  simp only [analyzePlayerAction, posMatches, negMatches, foldl_if_add, foldl_if_sub]
  ring_nf

/-- Claim C2: the sentiment scorer adds +2 per positive keyword occurring as a
case-insensitive substring, -2 per negative keyword, clamps the sum to
[-10, 10]; hence any text matching exactly `k` distinct positive keywords and
no negative keyword scores `min 10 (2 * k)`. -/
theorem claim_C2 (action : String) :
    analyzePlayerAction action =
      max (-10) (min 10 (2 * (posMatches action : Rat) - 2 * (negMatches action : Rat)))
    ∧ (-10 : Rat) ≤ analyzePlayerAction action
    ∧ analyzePlayerAction action ≤ 10
    ∧ (negMatches action = 0 →
        analyzePlayerAction action = min 10 (2 * (posMatches action : Rat))) := by
  refine ⟨analyze_eq_clamp action, ?_, ?_, ?_⟩
  · rw [analyze_eq_clamp action]; exact le_max_left _ _
  · rw [analyze_eq_clamp action]
    exact max_le (by norm_num) (min_le_left _ _)
  · intro h0
    rw [analyze_eq_clamp action, h0]
    have hk : (0 : Rat) ≤ 2 * (posMatches action : Rat) := by positivity
    have : (-10 : Rat) ≤ min 10 (2 * (posMatches action : Rat) - 2 * ((0 : Nat) : Rat)) :=
      le_min (by norm_num) (by push_cast; linarith)
    rw [max_eq_right this]
    push_cast
    ring_nf

/-- Witness for C2 at a concrete action with two positive keywords and no
negative keyword. -/
theorem claim_C2_witness :
    negMatches "they help and save us" = 0 ∧
      analyzePlayerAction "they help and save us" =
        min 10 (2 * (posMatches "they help and save us" : Rat)) :=
  ⟨by decide, (claim_C2 "they help and save us").2.2.2 (by decide)⟩

/- ## Helper lemmas for the relationship ledger -/

theorem alookup_set_self (m : List (String × RelState)) (k : String) (v : RelState) :
    alookup (setState m k v) k = some v := by
  induction m with
  | nil => simp [setState, alookup]
  | cons p ps ih =>
    by_cases h : p.1 = k
    · simp [setState, h, alookup]
    · simp [setState, h, alookup, ih]

theorem alookup_set_ne (m : List (String × RelState)) (k k' : String) (v : RelState)
    (h : k' ≠ k) : alookup (setState m k v) k' = alookup m k' := by
  induction m with
  | nil =>
    simp only [setState, alookup]
    rw [if_neg (fun hh => h hh.symm)]
  | cons p ps ih =>
    by_cases hp : p.1 = k
    · simp only [setState, if_pos hp, alookup]
      rw [if_neg (fun hh => h hh.symm), if_neg (fun hh => h (hp.symm.trans hh).symm)]
    · simp only [setState, if_neg hp, alookup, ih]

theorem lookup_update_self (e : Engine) (n a c : String) :
    alookup (updatePlayerRelationship e n a c).relationship_states n =
      some (stepRel ((alookup e.relationship_states n).getD
        { affinity := 50, trust := 50, interactions := [] }) a c) := by
  simp [updatePlayerRelationship, alookup_set_self]

theorem lookup_update_ne (e : Engine) (n a c m : String) (h : m ≠ n) :
    alookup (updatePlayerRelationship e n a c).relationship_states m =
      alookup e.relationship_states m := by
  simp [updatePlayerRelationship, alookup_set_ne _ _ _ _ h]

theorem stepRel_range (st : RelState) (a c : String) :
    0 ≤ (stepRel st a c).affinity ∧ (stepRel st a c).affinity ≤ 100 ∧
      0 ≤ (stepRel st a c).trust ∧ (stepRel st a c).trust ≤ 100 := by
  refine ⟨le_max_left _ _, max_le (by norm_num) (min_le_left _ _),
    le_max_left _ _, max_le (by norm_num) (min_le_left _ _)⟩

theorem applyUpdates_cons (e : Engine) (u : String × String × String)
    (l : List (String × String × String)) :
    applyUpdates e (u :: l) = applyUpdates (updatePlayerRelationship e u.1 u.2.1 u.2.2) l :=
  rfl

theorem applyUpdates_append (e : Engine) (l₁ l₂ : List (String × String × String)) :
    applyUpdates e (l₁ ++ l₂) = applyUpdates (applyUpdates e l₁) l₂ := by
  simp [applyUpdates, List.foldl_append]

theorem applyUpdates_lookup (l : List (String × String × String)) :
    ∀ (e : Engine) (n : String) (st : RelState),
      alookup (applyUpdates e l).relationship_states n = some st →
      alookup e.relationship_states n = some st ∨
        (0 ≤ st.affinity ∧ st.affinity ≤ 100 ∧ 0 ≤ st.trust ∧ st.trust ≤ 100) := by
  induction l with
  | nil => exact fun e n st h => Or.inl h
  | cons u us ih =>
    intro e n st h
    rw [applyUpdates_cons] at h
    rcases ih _ n st h with h1 | h2
    · by_cases hn : n = u.1
      · subst hn
        rw [lookup_update_self] at h1
        obtain rfl := (Option.some_inj.mp h1).symm
        exact Or.inr (stepRel_range _ _ _)
      · rw [lookup_update_ne _ _ _ _ _ hn] at h1
        exact Or.inl h1
    · exact Or.inr h2

theorem applyUpdates_growth (l : List (String × String × String)) :
    ∀ (e : Engine) (m : String) (st : RelState),
      alookup e.relationship_states m = some st →
      ∃ st', alookup (applyUpdates e l).relationship_states m = some st' ∧
        st.interactions <+: st'.interactions := by
  induction l with
  | nil => exact fun e m st h => ⟨st, h, List.prefix_refl _⟩
  | cons u us ih =>
    intro e m st h
    rw [applyUpdates_cons]
    by_cases hm : m = u.1
    · subst hm
      have h3 : alookup (updatePlayerRelationship e u.1 u.2.1 u.2.2).relationship_states u.1 =
          some (stepRel st u.2.1 u.2.2) := by
        rw [lookup_update_self, h]; rfl
      obtain ⟨st', h4, h5⟩ := ih _ _ _ h3
      refine ⟨st', h4, List.IsPrefix.trans ?_ h5⟩
      simp [stepRel]
    · have h3 : alookup (updatePlayerRelationship e u.1 u.2.1 u.2.2).relationship_states m =
          some st := by
        rw [lookup_update_ne _ _ _ _ _ hm]; exact h
      exact ih _ _ _ h3

/-- An action text matching five positive keywords: it scores exactly +10. -/
def plus10action : String := "help save protect agree gift"

/-- A fresh engine with no profiles and no relationship entries. -/
def engine0 : Engine := ⟨[], []⟩

/-- Evaluate the sentiment scorer at a concrete text from its keyword counts:
`Rat` arithmetic is discharged by `norm_num`, the counts by `decide`. -/
theorem analyze_eval (a : String) (k m : Nat) (v : Rat)
    (hk : posMatches a = k) (hm : negMatches a = m)
    (hv : 2 * (k : Rat) - 2 * (m : Rat) = v) (h1 : -10 ≤ v) (h2 : v ≤ 10) :
    analyzePlayerAction a = v := by
  rw [analyze_eq_clamp, hk, hm, hv, min_eq_right h2, max_eq_right h1]

/-- Evaluate the clamp when the value is already in range. -/
theorem clamp_eval (x : Rat) (h0 : 0 ≤ x) (h1 : x ≤ 100) : max 0 (min 100 x) = x := by
  rw [min_eq_right h1, max_eq_right h0]

/-- Evaluate one ledger step at known score and clamp values. -/
theorem stepRel_eval (st : RelState) (a c : String) (s aff tr : Rat)
    (hs : analyzePlayerAction a = s)
    (h1 : max 0 (min 100 (st.affinity + s)) = aff)
    (h2 : max 0 (min 100 (st.trust + s * (0.5 : Rat))) = tr) :
    stepRel st a c = ⟨aff, tr, st.interactions ++ [⟨a, c, s, "simulated_timestamp"⟩]⟩ := by
  simp only [stepRel, hs, h1, h2]

theorem analyze_plus10 : analyzePlayerAction plus10action = 10 :=
  analyze_eval _ 5 0 10 (by decide) (by decide) (by push_cast; norm_num)
    (by norm_num) (by norm_num)

theorem plus10_iter (n c : String) : ∀ (k : Nat) (e : Engine) (st : RelState),
    alookup e.relationship_states n = some st →
    0 ≤ st.affinity → st.affinity ≤ 100 →
    ∃ st', alookup (applyUpdates e
        (List.replicate k (n, plus10action, c))).relationship_states n = some st' ∧
      st'.affinity = min 100 (st.affinity + 10 * k) := by
  intro k
  induction k with
  | zero =>
    intro e st h h0 h1
    refine ⟨st, h, ?_⟩
    push_cast
    rw [mul_zero, add_zero, min_eq_right h1]
  | succ k ih =>
    intro e st h h0 h1
    have hup : alookup (updatePlayerRelationship e n plus10action c).relationship_states n =
        some (stepRel st plus10action c) := by
      rw [lookup_update_self, h]; rfl
    have haff : (stepRel st plus10action c).affinity = min 100 (st.affinity + 10) := by
      simp only [stepRel, analyze_plus10]
      exact max_eq_right (le_min (by norm_num) (by linarith))
    have h0' : 0 ≤ (stepRel st plus10action c).affinity := by
      rw [haff]; exact le_min (by norm_num) (by linarith)
    have h1' : (stepRel st plus10action c).affinity ≤ 100 := by
      rw [haff]; exact min_le_left _ _
    obtain ⟨st', hst', hval⟩ := ih (updatePlayerRelationship e n plus10action c) _ hup h0' h1'
    rw [List.replicate_succ, applyUpdates_cons]
    refine ⟨st', hst', ?_⟩
    rw [hval, haff]
    have hk0 : (0 : Rat) ≤ (k : Rat) := Nat.cast_nonneg k
    rcases le_or_lt (st.affinity + 10) 100 with hc | hc
    · rw [min_eq_right hc]
      congr 1
      push_cast
      ring
    · have hinner : (100 : Rat) ⊓ (st.affinity + 10) = 100 := min_eq_left (by linarith)
      rw [hinner, min_eq_left (by linarith), min_eq_left (by push_cast; linarith)]

/-- Claim C1: affinity and trust always stay in [0, 100] across any finite
sequence of updates; 50 consecutive +10 updates from the 50/50 baseline leave
affinity at exactly 100; each update appends exactly one interaction record
and earlier records are preserved as a prefix (never removed or reordered). -/
theorem claim_C1 :
    (∀ (e : Engine) (n : String) (l : List (String × String × String)) (st : RelState),
        alookup e.relationship_states n = none →
        alookup (applyUpdates e l).relationship_states n = some st →
        0 ≤ st.affinity ∧ st.affinity ≤ 100 ∧ 0 ≤ st.trust ∧ st.trust ≤ 100)
    ∧ ((alookup (applyUpdates engine0
          (List.replicate 50 ("Lyra", plus10action, "quest"))).relationship_states
            "Lyra").map RelState.affinity = some 100)
    ∧ (∀ (e : Engine) (n a c : String),
        alookup (updatePlayerRelationship e n a c).relationship_states n =
          some (stepRel ((alookup e.relationship_states n).getD
            { affinity := 50, trust := 50, interactions := [] }) a c))
    ∧ (∀ (st : RelState) (a c : String),
        (stepRel st a c).interactions =
          st.interactions ++ [⟨a, c, analyzePlayerAction a, "simulated_timestamp"⟩])
    ∧ (∀ (e : Engine) (m : String) (l : List (String × String × String)) (st : RelState),
        alookup e.relationship_states m = some st →
        ∃ st', alookup (applyUpdates e l).relationship_states m = some st' ∧
          st.interactions <+: st'.interactions) := by
  refine ⟨?_, ?_, ?_, ?_, ?_⟩
  · intro e n l st hnone hsome
    rcases applyUpdates_lookup l e n st hsome with h1 | h2
    · rw [hnone] at h1; cases h1
    · exact h2
  · have h1 : alookup (updatePlayerRelationship engine0 "Lyra" plus10action
        "quest").relationship_states "Lyra" =
        some (stepRel { affinity := 50, trust := 50, interactions := [] }
          plus10action "quest") := by
      rw [lookup_update_self]; rfl
    have haff : (stepRel { affinity := 50, trust := 50, interactions := [] }
        plus10action "quest").affinity = 60 := by
      simp only [stepRel, analyze_plus10]
      rw [show (50 : Rat) + 10 = 60 by norm_num]
      exact clamp_eval 60 (by norm_num) (by norm_num)
    obtain ⟨st', hst', hval⟩ := plus10_iter "Lyra" "quest" 49 _ _ h1
      (by rw [haff]; norm_num) (by rw [haff]; norm_num)
    have h50 : List.replicate 50 ("Lyra", plus10action, "quest") =
        ("Lyra", plus10action, "quest") :: List.replicate 49 ("Lyra", plus10action, "quest") :=
      rfl
    rw [h50, applyUpdates_cons, hst']
    have : st'.affinity = 100 := by
      rw [hval, haff]
      rw [show (60 : Rat) + 10 * ((49 : Nat) : Rat) = 550 by push_cast; norm_num]
      rw [min_eq_left (by norm_num)]
    simp [this]
  · exact lookup_update_self
  · intro st a c; rfl
  · exact fun e m l st h => applyUpdates_growth l e m st h

theorem analyze_help : analyzePlayerAction "help" = 2 :=
  analyze_eval _ 1 0 2 (by decide) (by decide) (by push_cast; norm_num)
    (by norm_num) (by norm_num)

theorem help_step :
    alookup (applyUpdates engine0 [("A", "help", "c")]).relationship_states "A" =
      some ⟨52, 51, [⟨"help", "c", 2, "simulated_timestamp"⟩]⟩ := by
  have h0 : applyUpdates engine0 [("A", "help", "c")] =
      updatePlayerRelationship engine0 "A" "help" "c" := rfl
  rw [h0, lookup_update_self]
  have h1 : alookup engine0.relationship_states "A" = none := rfl
  rw [h1]
  rw [show (none : Option RelState).getD
      { affinity := 50, trust := 50, interactions := [] } =
      { affinity := 50, trust := 50, interactions := [] } from rfl]
  rw [stepRel_eval _ _ _ 2 52 51 analyze_help
    (by rw [show (50 : Rat) + 2 = 52 by norm_num]; exact clamp_eval 52 (by norm_num) (by norm_num))
    (by rw [show (50 : Rat) + 2 * (0.5 : Rat) = 51 by norm_num];
        exact clamp_eval 51 (by norm_num) (by norm_num))]
  rfl

/-- Witness for C1: one concrete update on a fresh engine lands in range, and
interactions of a pre-existing entry are preserved as a prefix. -/
theorem claim_C1_witness :
    (0 ≤ (52 : Rat) ∧ (52 : Rat) ≤ 100 ∧ 0 ≤ (51 : Rat) ∧ (51 : Rat) ≤ 100)
    ∧ ∃ st', alookup (applyUpdates
          (⟨[], [("A", { affinity := 50, trust := 50, interactions := [] })]⟩ : Engine)
          [("A", "help", "c")]).relationship_states "A" = some st' ∧
        ([] : List InteractionRec) <+: st'.interactions :=
  ⟨claim_C1.1 engine0 "A" [("A", "help", "c")]
      ⟨52, 51, [⟨"help", "c", 2, "simulated_timestamp"⟩]⟩ rfl help_step,
    claim_C1.2.2.2.2
      (⟨[], [("A", { affinity := 50, trust := 50, interactions := [] })]⟩ : Engine)
      "A" [("A", "help", "c")] { affinity := 50, trust := 50, interactions := [] }
      rfl⟩

/-- Claim C3: the first update for an unseen NPC initialises the entry to the
50/50 baseline and then applies the scored delta on top of it; for the action
"I will help and protect you" (two positive keywords, score +4) the result is
affinity 54, trust 52, and one interaction record. -/
theorem claim_C3 (e : Engine) (n c : String)
    (hnone : alookup e.relationship_states n = none) :
    (∀ a, alookup (updatePlayerRelationship e n a c).relationship_states n =
        some (stepRel { affinity := 50, trust := 50, interactions := [] } a c))
    ∧ alookup (updatePlayerRelationship e n
          "I will help and protect you" c).relationship_states n =
        some ⟨54, 52, [⟨"I will help and protect you", c, 4, "simulated_timestamp"⟩]⟩ := by
  have hbase : ∀ a, alookup (updatePlayerRelationship e n a c).relationship_states n =
      some (stepRel { affinity := 50, trust := 50, interactions := [] } a c) := by
    intro a
    rw [lookup_update_self, hnone]; rfl
  refine ⟨hbase, ?_⟩
  rw [hbase]
  have h4 : analyzePlayerAction "I will help and protect you" = 4 :=
    analyze_eval _ 2 0 4 (by decide) (by decide) (by push_cast; norm_num)
      (by norm_num) (by norm_num)
  rw [stepRel_eval _ _ _ 4 54 52 h4
    (by rw [show (50 : Rat) + 4 = 54 by norm_num]; exact clamp_eval 54 (by norm_num) (by norm_num))
    (by rw [show (50 : Rat) + 4 * (0.5 : Rat) = 52 by norm_num];
        exact clamp_eval 52 (by norm_num) (by norm_num))]
  rfl

/-- Witness for C3 on a fresh engine and the NPC of the spec scenario. -/
theorem claim_C3_witness :
    (∀ a, alookup (updatePlayerRelationship engine0 "Dr. Elian Thaumatec" a
        "greeting").relationship_states "Dr. Elian Thaumatec" =
        some (stepRel { affinity := 50, trust := 50, interactions := [] } a "greeting"))
    ∧ alookup (updatePlayerRelationship engine0 "Dr. Elian Thaumatec"
          "I will help and protect you" "greeting").relationship_states
        "Dr. Elian Thaumatec" =
        some ⟨54, 52, [⟨"I will help and protect you", "greeting", 4,
          "simulated_timestamp"⟩]⟩ :=
  claim_C3 engine0 "Dr. Elian Thaumatec" "greeting" (by decide)

/- ## Style selector (engine.py lines 130-152) -/

/-- `_determine_interaction_style`.  The greeting branch indexes
`alignment.split()[1]`; a missing second word is an `IndexError`, modelled as
`none`.  Every other branch is total (engine.py lines 130-152). -/
def determineInteractionStyle (p : NPCProfile) (context : String)
    (player_history : Option (List (String × String))) : Option String :=
  if context = "greeting" then
    match (pySplitWs p.alignment)[1]? with
    | some w => some (if w = "Good" then "friendly" else "cautious")
    | none => none
  else if context = "quest_offer" then
    if pyIn "urgency" (pyLower context) then some "urgent"
    else if p.className ∈ (["Techno-Mage Scientist", "Sentient Alien Pet"] : List String) then
      some "mysterious"
    else some "casual"
  else if context = "response_to_player_choice" then
    -- Python `if not player_history`: `None` and the empty dict are falsy
    match player_history with
    | none => some "neutral"
    | some hist => if hist.isEmpty then some "neutral" else some "approval"
  else some "friendly"

/- ## Mood selector (engine.py lines 165-190) -/

/-- The fixed mood list (engine.py line 172). -/
def moods : List String := ["happy", "sad", "angry", "curious"]

/-- Python `max(items, key=lambda x: x[1])` on a nonempty assoc list: the
first item with maximal value (strictly greater replaces). -/
def maxTrait : List (String × Rat) → Option (String × Rat)
  | [] => none
  | t :: ts => some (ts.foldl (fun b y => if b.2 < y.2 then y else b) t)

/-- `_determine_mood`: `r` stands for the branch's `random.random()` draw and
`cseed` for its `random.choice(moods)` draw (engine.py lines 165-190). -/
def determineMood (p : NPCProfile) (r : Rat) (cseed : Nat) : String :=
  match maxTrait p.personality_traits with
  | some mt =>
    if mt.1 ∈ (["optimism", "enthusiasm", "curiosity"] : List String) then
      if r < (0.7 : Rat) then "happy" else pyChoice cseed moods
    else if mt.1 ∈ (["wisdom", "empathy", "compassion"] : List String) then
      if r < (0.6 : Rat) then "curious" else pyChoice cseed moods
    else if mt.1 ∈ (["determination", "courage"] : List String) then
      pyChoice cseed moods
    else
      if r < (0.4 : Rat) then "curious" else pyChoice cseed moods
  | none => if r < (0.4 : Rat) then "curious" else pyChoice cseed moods

/- ## Template catalog (engine.py lines 48-91) -/

/-- The context → style → template part of `_initialize_prompt_templates`
(engine.py lines 50-68).  The sibling `"mood_modifiers"` key of the Python
dict is modelled separately below; `_select_template` can only ever reach its
generic fallback through that key, which is what this split preserves. -/
def promptTemplates : List (String × List (String × String)) :=
  [("greeting",
    [("formal", "Greetings, traveler. I am {npc_name}, {npc_title}. {custom_intro}"),
     ("friendly", "Hello! Great to see you here! I'm {npc_name}. {custom_intro}"),
     ("cautious", "Hmm... {hesitation} I'm {npc_name}. {custom_intro}"),
     ("excited", "Wow! A new face! I'm {npc_name}! {custom_intro}")]),
   ("quest_offer",
    [("urgent", "I need your help immediately. {quest_description} Time is running out!"),
     ("mysterious",
      "I have an... interesting proposal. {quest_description} There's more to this than meets the eye."),
     ("casual", "If you have time, could you help me with something? {quest_description} No rush."),
     ("challenging",
      "I'm looking for someone with your skills. {quest_description} Few could manage this.")]),
   ("response_to_player_choice",
    [("approval", "Excellent choice! {approval_response}"),
     ("disappointment", "{disappointment_response} I expected more from you."),
     ("surprise", "Interesting... {surprise_response} I didn't expect that."),
     ("neutral", "I understand your decision. {neutral_response}")])]

/-- A mood modifier entry (engine.py lines 69-90). -/
structure MoodMod where
  word_choices : List String
  sentence_endings : List String
  speech_patterns : String
deriving DecidableEq, Repr

/-- The `"mood_modifiers"` part of the template dict (engine.py lines 69-90). -/
def moodModifiers : List (String × MoodMod) :=
  [("happy", ⟨["wonderful", "excellent", "fantastic", "amazing"],
     ["!", "! That's great!", "! How delightful!"], "expansive and enthusiastic"⟩),
   ("sad", ⟨["unfortunately", "sadly", "regrettably", "with sorrow"],
     ["...", ". *sigh*", ". Such is life..."], "slow and melancholic"⟩),
   ("angry", ⟨["irritating", "absurd", "unacceptable", "outrageous"],
     [".", ". Understood?", "!"], "short and intense"⟩),
   ("curious", ⟨["interesting", "fascinating", "intriguing", "curious"],
     ["?", "... don't you think?", "... I wonder why."], "questioning and reflective"⟩)]

/-- `_select_template` (engine.py lines 154-163). -/
def selectTemplate (context interaction_style : String) : String :=
  match alookup promptTemplates context with
  | some styles =>
    match alookup styles interaction_style with
    | some t => t
    | none => "Hello, I'm {npc_name}. How can I help?"
  | none => "Hello, I'm {npc_name}. How can I help?"

/-- `_apply_mood_modifiers` (engine.py lines 192-202). -/
def applyMoodModifiers (template mood : String) : String :=
  match alookup moodModifiers mood with
  | none => template
  | some md => "[" ++ md.speech_patterns ++ "] " ++ template

/- ## Template renderer (engine.py lines 204-240) -/

/-- `_generate_intro_snippet` (engine.py lines 230-240). -/
def generateIntroSnippet (p : NPCProfile) : String :=
  if p.backstory = "" then "I have a story to tell."
  else
    let sentences := pySplitChar p.backstory '.'
    if sentences.length > 2 then String.mk (stripL (sentences.getD 1 "").data) ++ "."
    else sentences.getD 0 "" ++ "."

/-- The `{custom_intro}` replacement value (engine.py line 216). -/
def customIntro (p : NPCProfile) : String :=
  "I am " ++ p.alignment ++ " and " ++ generateIntroSnippet p

/-- The three hesitation phrases drawn by `random.choice`
(engine.py line 217). -/
def hesitations : List String := ["Who approaches?", "You seem... different.", "Hmm..."]

/-- `_fill_template`: the nine replacements applied in the dict's insertion
order via `str.replace`; `hesSeed` stands for the `random.choice` draw
(engine.py lines 204-228).  The `context` and `player_choice` parameters of
the source are unused by the replacement table. -/
def fillTemplate (template : String) (p : NPCProfile) (hesSeed : Nat) : String :=
  let r1 := pyReplace template "{npc_name}" p.name
  let r2 := pyReplace r1 "{npc_title}" p.className
  let r3 := pyReplace r2 "{custom_intro}" (customIntro p)
  let r4 := pyReplace r3 "{hesitation}" (pyChoice hesSeed hesitations)
  let r5 := pyReplace r4 "{quest_description}" "[Quest description would be dynamically generated]"
  let r6 := pyReplace r5 "{approval_response}" "This shows your character."
  let r7 := pyReplace r6 "{disappointment_response}" "This wasn't what I expected."
  let r8 := pyReplace r7 "{surprise_response}" "You continue to surprise me."
  pyReplace r8 "{neutral_response}" "Let's see where this leads us."

/- ## Orchestrator: generate_dialogue (engine.py lines 93-128) -/

/-- `generate_dialogue`.  `r`, `cseed`, `hesSeed` are the random draws of the
mood selector and the renderer; `none` models an uncaught `IndexError` from
the style selector (engine.py lines 93-128). -/
def generateDialogue (e : Engine) (npc_name context : String)
    (player_history : Option (List (String × String))) (player_choice : Option String)
    (r : Rat) (cseed hesSeed : Nat) : Option String :=
  match findNPC e npc_name with
  | none => some ("[NPC '" ++ npc_name ++ "' not found in system]")
  | some p =>
    match determineInteractionStyle p context player_history with
    | none => none
    | some interaction_style =>
      let template := selectTemplate context interaction_style
      let mood := determineMood p r cseed
      let modified := applyMoodModifiers template mood
      some (fillTemplate modified p hesSeed)

/- ## Response option generator (engine.py lines 305-463) -/

/-- `_get_player_nickname` (engine.py lines 372-379). -/
def getPlayerNickname (affinity : Rat) (seed : Nat) : String :=
  if (90 : Rat) < affinity then
    pyChoice seed ["my dear friend", "partner", "adventure companion"]
  else if (70 : Rat) < affinity then pyChoice seed ["friend", "partner", "adventurer"]
  else "traveler"

/-- `_generate_suggestion` (engine.py lines 381-390). -/
def generateSuggestion (p : NPCProfile) (context : String) (positive : Bool) : String :=
  if pyIn "Explorer" p.className then
    if positive then "explore that less-traveled path" else "follow the safer route this time"
  else if pyIn "Scientist" p.className then
    if positive then "analyze the patterns before deciding" else "consider the unknown variables"
  else if pyIn "Guardian" p.className then
    if positive then "protect what's most valuable first" else "retreat and reassess the situation"
  else
    if positive then "follow your intuition" else "think more about the consequences"

/-- `_generate_cautious_response`: indexes `alignment.split()[0]`, an
`IndexError` (modelled `none`) when the alignment has no words
(engine.py lines 392-400). -/
def generateCautiousResponse (p : NPCProfile) : Option String :=
  match pySplitWs p.alignment with
  | [] => none
  | w :: _ =>
    some (if w = "Lawful" then "We need to consider the rules and traditions here"
      else if w = "Chaotic" then "I don't much trust rigid plans in this situation"
      else "I see pros and cons on both sides")

/-- `_generate_honest_opinion` (engine.py lines 402-417). -/
def generateHonestOpinion (p : NPCProfile) (context : String) : String :=
  match maxTrait p.personality_traits with
  | some mt =>
    if mt.1 ∈ (["optimism", "enthusiasm", "curiosity"] : List String) then
      "I believe we should try the bolder approach"
    else if mt.1 ∈ (["wisdom", "patience"] : List String) then
      "I suggest we observe more before acting"
    else if mt.1 ∈ (["determination", "courage"] : List String) then
      "we should face this head-on, without hesitation"
    else "I think we should follow what seems most aligned with our goals"
  | none => "I think we should follow what seems most aligned with our goals"

/-- `_generate_factual_response` (engine.py lines 419-430). -/
def generateFactualResponse (p : NPCProfile) (context : String) : String :=
  if pyIn "Explorer" p.className then
    "I've seen similar situations in my travels, and usually it's best to map all possible routes"
  else if pyIn "Scientist" p.className then
    "the data suggests there are multiple variables to consider, especially the time factor"
  else if pyIn "Guardian" p.className then
    "the natural balance suggests we should intervene minimally, but with precision"
  else "based on what we know, we have several viable options to consider"

/-- The class perspective table (engine.py lines 451-457), in insertion
order; `_generate_class_perspective` returns the first entry whose key is a
substring of the class name. -/
def classPerspectives : List (String × String) :=
  [("Star Explorer",
    "each journey reveals new possibilities we couldn't imagine before setting out"),
   ("Techno-Mage Scientist",
    "the intersection between science and the unexplained often reveals the most elegant solutions"),
   ("Guardian of the Floating Forests",
    "all parts of a system are connected, and each action creates ripples through the whole"),
   ("Sentient Alien Pet",
    "communication goes far beyond words; sometimes the unspoken is more important"),
   ("Hero Apprentice",
    "the stories we hear shape the stories we live, and each of us is writing our own chapter")]

/-- `_generate_class_perspective` (engine.py lines 449-463). -/
def generateClassPerspective (npc_class : String) : String :=
  match classPerspectives.find? (fun kv => pyIn kv.1 npc_class) with
  | some kv => kv.2
  | none => "each situation is unique and deserves careful consideration"

/-- `_generate_personality_based_response` (engine.py lines 432-447). -/
def generatePersonalityBasedResponse (p : NPCProfile) (context : String) : String :=
  if (alookup p.interaction_style "under_stress").isSome && pyIn "stress" (pyLower context) then
    "[Under pressure] " ++ (alookup p.interaction_style "under_stress").getD ""
  else if (alookup p.interaction_style "teaching_moments").isSome
      && pyIn "learn" (pyLower context) then
    "[Teaching] " ++ (alookup p.interaction_style "teaching_moments").getD ""
  else if (alookup p.interaction_style "conflict_resolution").isSome
      && (pyIn "conflict" (pyLower context) || pyIn "disagree" (pyLower context)) then
    "[Resolving conflict] " ++ (alookup p.interaction_style "conflict_resolution").getD ""
  else if (alookup p.interaction_style "first_meeting").isSome
      && pyIn "new" (pyLower context) then
    "[First meeting] " ++ (alookup p.interaction_style "first_meeting").getD ""
  else
    "As a " ++ p.className ++ ", my perspective is that " ++
      generateClassPerspective p.className

/-- The three filler phrasings drawn by `random.choice` (engine.py line 368). -/
def fillerOptions : List String := ["next steps", "other options", "alternatives"]

/-- `generate_response_options`.  `nickSeed`, `sampSeeds`, `fillSeed` stand
for the `random.choice`/`random.sample` draws; `none` models an uncaught
`IndexError` from `_generate_cautious_response` (engine.py lines 305-370).
The source also computes an unused local `tone` (line 336).  The dict default
at line 331 carries only affinity and trust; its `interactions` field is
never read. -/
def generateResponseOptions (e : Engine) (npc_name context player_statement : String)
    (num_options : Nat) (nickSeed : Nat) (sampSeeds : List Nat) (fillSeed : Nat → Nat) :
    Option (List String) :=
  match findNPC e npc_name with
  | none => some (List.replicate num_options ("[NPC '" ++ npc_name ++ "' not found]"))
  | some p =>
    let relationship := (alookup e.relationship_states npc_name).getD
      { affinity := 50, trust := 50, interactions := [] }
    let affinity := relationship.affinity
    let trust := relationship.trust
    let highAff : List String :=
      if (60 : Rat) < affinity then
        ["I completely understand, " ++ getPlayerNickname affinity nickSeed ++
          ". Considering our history together, I suggest " ++
          generateSuggestion p context true ++ "."]
      else []
    let lowAff : Option (List String) :=
      if affinity < (40 : Rat) then
        match generateCautiousResponse p with
        | none => none
        | some cr => some ["Hmm. " ++ cr ++ ". Perhaps we should " ++
            generateSuggestion p context false ++ "."]
      else some []
    match lowAff with
    | none => none
    | some low =>
      let options := highAff ++ low ++
        (if (70 : Rat) < trust then
          ["I trust you to make the right decision here. If you want my honest opinion, " ++
            generateHonestOpinion p context ++ "."]
         else []) ++
        ["Considering the facts, " ++ generateFactualResponse p context ++ "."] ++
        [generatePersonalityBasedResponse p context]
      if num_options < options.length then some (pySample sampSeeds options num_options)
      else some (options ++ (List.range (num_options - options.length)).map (fun i =>
        "Interesting perspective. Let's consider " ++ pyChoice (fillSeed i) fillerOptions ++ "."))

/- ## Engine-level operations with explicit state threading -/

/-- `generate_dialogue` as a state transformer: the method reads but never
writes the engine state, so the faithful embedding returns it unchanged. -/
def generateDialogueOp (e : Engine) (npc_name context : String)
    (player_history : Option (List (String × String))) (player_choice : Option String)
    (r : Rat) (cseed hesSeed : Nat) : Option String × Engine :=
  (generateDialogue e npc_name context player_history player_choice r cseed hesSeed, e)

/-- `generate_response_options` as a state transformer: reads
`relationship_states` (line 331) but never writes it. -/
def generateResponseOptionsOp (e : Engine) (npc_name context player_statement : String)
    (num_options : Nat) (nickSeed : Nat) (sampSeeds : List Nat) (fillSeed : Nat → Nat) :
    Option (List String) × Engine :=
  (generateResponseOptions e npc_name context player_statement num_options
    nickSeed sampSeeds fillSeed, e)

/-- `update_player_relationship` as a state transformer (returns `None`). -/
def updatePlayerRelationshipOp (e : Engine) (npc_name player_action context : String) :
    Unit × Engine :=
  ((), updatePlayerRelationship e npc_name player_action context)

/- ## Helper lemmas for the generators -/

theorem pySample_length : ∀ (n : Nat) (seeds : List Nat) (pool : List String),
    n ≤ pool.length → (pySample seeds pool n).length = n := by
  intro n
  induction n with
  | zero => intro seeds pool _; rfl
  | succ n ih =>
    intro seeds pool h
    cases pool with
    | nil => simp at h
    | cons a t =>
      have hi : (seeds.headD 0 % (a :: t).length) < (a :: t).length :=
        Nat.mod_lt _ (by simp)
      have hlen := List.length_eraseIdx_add_one hi
      have hle : n ≤ ((a :: t).eraseIdx (seeds.headD 0 % (a :: t).length)).length := by
        simp only [List.length_cons] at h hlen ⊢
        omega
      rw [show pySample seeds (a :: t) (n + 1) =
          (a :: t).getD (seeds.headD 0 % (a :: t).length) "" ::
            pySample seeds.tail ((a :: t).eraseIdx (seeds.headD 0 % (a :: t).length)) n
        from rfl]
      rw [List.length_cons, ih seeds.tail _ hle]

theorem containsL_nil_pat : ∀ (hay : List Char), containsL [] hay = true := by
  intro hay
  cases hay with
  | nil => rfl
  | cons c cs => simp [containsL, startsWithL]

theorem startsWithL_append_self : ∀ (pat rest : List Char),
    startsWithL pat (pat ++ rest) = true := by
  intro pat
  induction pat with
  | nil => intro rest; rfl
  | cons c cs ih => intro rest; simp [startsWithL, ih]

theorem containsL_append_self : ∀ (pre pat suf : List Char),
    containsL pat (pre ++ (pat ++ suf)) = true := by
  intro pre
  induction pre with
  | nil =>
    intro pat suf
    cases pat with
    | nil => exact containsL_nil_pat _
    | cons c cs =>
      show (startsWithL (c :: cs) ((c :: cs) ++ suf) ||
        containsL (c :: cs) (cs ++ suf)) = true
      rw [startsWithL_append_self (c :: cs) suf, Bool.true_or]
  | cons c cs ih =>
    intro pat suf
    show (startsWithL pat (c :: (cs ++ (pat ++ suf))) ||
      containsL pat (cs ++ (pat ++ suf))) = true
    rw [ih pat suf, Bool.or_true]

theorem strData_append (a b : String) : (a ++ b).data = a.data ++ b.data := by
  cases a with
  | mk da => cases b with
    | mk db => rfl

theorem pyIn_middle (pre mid suf : String) :
    pyIn mid (pre ++ mid ++ suf) = true := by
  unfold pyIn
  rw [strData_append, strData_append, List.append_assoc]
  exact containsL_append_self _ _ _

/- ## Claim C4: option count -/

/-- Selection step of `generate_response_options`: sampling or padding always
produces exactly `num_options` strings (engine.py lines 362-370). -/
theorem optionsLength (options : List String) (n : Nat) (ss : List Nat) (fs : Nat → Nat) :
    Option.map List.length
      (if n < options.length then some (pySample ss options n)
       else some (options ++ (List.range (n - options.length)).map (fun i =>
         "Interesting perspective. Let's consider " ++ pyChoice (fs i) fillerOptions ++ "."))) =
      some n := by
  by_cases h : n < options.length
  · rw [if_pos h, Option.map_some', pySample_length n ss options (Nat.le_of_lt h)]
  · rw [if_neg h, Option.map_some', List.length_append, List.length_map, List.length_range]
    congr 1
    omega

/-- Claim C4: for a known NPC (with a well-formed, nonempty alignment as the
spec's data model requires), `generate_response_options` returns exactly
`num_options` strings for every state, context, statement, count, and random
draw: an oversized pool is sampled down to `n`, an undersized one is padded
with fillers up to `n`. -/
theorem claim_C4 (e : Engine) (name context stmt : String) (p : NPCProfile)
    (n nick : Nat) (ss : List Nat) (fs : Nat → Nat)
    (hfind : findNPC e name = some p)
    (halign : pySplitWs p.alignment ≠ []) :
    (generateResponseOptions e name context stmt n nick ss fs).map List.length = some n := by
  simp only [generateResponseOptions, hfind]
  have hcr : ∃ cr, generateCautiousResponse p = some cr := by
    unfold generateCautiousResponse
    cases h : pySplitWs p.alignment with
    | nil => exact absurd h halign
    | cons w ws => exact ⟨_, rfl⟩
  obtain ⟨cr, hcr⟩ := hcr
  rw [hcr]
  set rel := (alookup e.relationship_states name).getD
    { affinity := 50, trust := 50, interactions := [] } with hrel
  by_cases hlo : rel.affinity < (40 : Rat)
  · rw [if_pos hlo]
    exact optionsLength _ n ss fs
  · rw [if_neg hlo]
    exact optionsLength _ n ss fs

/-- A sample profile for witnesses, with the spec scenario's name, class and
alignment. -/
def drElian : NPCProfile :=
  { name := "Dr. Elian Thaumatec", className := "Techno-Mage Scientist",
    alignment := "Neutral Good", personality_traits := [("curiosity", 9), ("wisdom", 8)],
    backstory := "", interaction_style := [] }

/-- An engine whose profile store holds only `drElian`. -/
def engineD : Engine := ⟨[drElian], []⟩

/-- Witness for C4 at a concrete engine, NPC and count. -/
theorem claim_C4_witness :
    (generateResponseOptions engineD "Dr. Elian Thaumatec" "problem solving"
      "We need a plan" 3 0 [] (fun _ => 0)).map List.length = some 3 :=
  claim_C4 engineD "Dr. Elian Thaumatec" "problem solving" "We need a plan"
    drElian 3 0 [] (fun _ => 0) rfl (by decide)

/- ## Claim C5: unknown NPC sentinels -/

/-- Claim C5: for an NPC name absent from the profile store,
`generate_dialogue` returns (never raises) a string containing the literal
name and a not-found marker, and `generate_response_options` returns
`num_options` identical not-found marker strings; neither result consults the
relationship state (replacing it leaves the output unchanged). -/
theorem claim_C5 (e : Engine) (name context stmt : String)
    (hist : Option (List (String × String))) (pc : Option String) (r : Rat)
    (cs hs n nick : Nat) (ss : List Nat) (fs : Nat → Nat)
    (rs' : List (String × RelState))
    (hfind : findNPC e name = none) :
    generateDialogue e name context hist pc r cs hs =
      some ("[NPC '" ++ name ++ "' not found in system]")
    ∧ pyIn name ("[NPC '" ++ name ++ "' not found in system]") = true
    ∧ pyIn "not found" ("[NPC '" ++ name ++ "' not found in system]") = true
    ∧ generateResponseOptions e name context stmt n nick ss fs =
        some (List.replicate n ("[NPC '" ++ name ++ "' not found]"))
    ∧ generateResponseOptions { e with relationship_states := rs' } name context stmt
        n nick ss fs = generateResponseOptions e name context stmt n nick ss fs := by
  have hfind' : findNPC { e with relationship_states := rs' } name = none := hfind
  refine ⟨?_, ?_, ?_, ?_, ?_⟩
  · simp only [generateDialogue, hfind]
  · exact pyIn_middle "[NPC '" name "' not found in system]"
  · unfold pyIn
    rw [strData_append, strData_append]
    rw [show ("' not found in system]" : String).data =
      "' ".data ++ ("not found".data ++ " in system]".data) from rfl]
    have hmid := containsL_append_self ("[NPC '".data ++ (name.data ++ "' ".data))
      "not found".data " in system]".data
    simpa [List.append_assoc] using hmid
  · simp only [generateResponseOptions, hfind]
  · simp only [generateResponseOptions, hfind, hfind']

/-- Witness for C5 at the spec's "Ghost" example on a fresh engine. -/
theorem claim_C5_witness :
    generateDialogue engine0 "Ghost" "greeting" none none 0 0 0 =
      some ("[NPC '" ++ "Ghost" ++ "' not found in system]")
    ∧ pyIn "Ghost" ("[NPC '" ++ "Ghost" ++ "' not found in system]") = true
    ∧ pyIn "not found" ("[NPC '" ++ "Ghost" ++ "' not found in system]") = true
    ∧ generateResponseOptions engine0 "Ghost" "chat" "hello" 3 0 [] (fun _ => 0) =
        some (List.replicate 3 ("[NPC '" ++ "Ghost" ++ "' not found]"))
    ∧ generateResponseOptions { engine0 with relationship_states := [] } "Ghost" "chat"
        "hello" 3 0 [] (fun _ => 0) =
        generateResponseOptions engine0 "Ghost" "chat" "hello" 3 0 [] (fun _ => 0) :=
  claim_C5 engine0 "Ghost" "chat" "hello" none none 0 0 0 3 0 [] (fun _ => 0) [] rfl

/- ## Claim C6: greeting style from alignment -/

/-- Claim C6: for a two-word alignment and context "greeting", the style is
"friendly" exactly when the second word is "Good" and "cautious" otherwise,
whatever the history argument. -/
theorem claim_C6 (p : NPCProfile) (hist : Option (List (String × String)))
    (w1 w2 : String) (h : pySplitWs p.alignment = [w1, w2]) :
    determineInteractionStyle p "greeting" hist =
      some (if w2 = "Good" then "friendly" else "cautious") := by
  simp only [determineInteractionStyle, if_pos rfl, h]
  rfl

/-- Witness for C6 at the "Neutral Good" profile. -/
theorem claim_C6_witness :
    determineInteractionStyle drElian "greeting" none =
      some (if "Good" = "Good" then "friendly" else "cautious") :=
  claim_C6 drElian none "Neutral" "Good" (by decide)

/- ## Claim C7: quest_offer style -/

/-- Claim C7: for context "quest_offer" the style is "urgent" if the literal
substring "urgency" occurs in the context label, else "mysterious" when the
class is in the fixed mystery set, else "casual". -/
theorem claim_C7 (p : NPCProfile) (hist : Option (List (String × String))) :
    determineInteractionStyle p "quest_offer" hist =
      (if pyIn "urgency" (pyLower "quest_offer") then some "urgent"
       else if p.className ∈ (["Techno-Mage Scientist", "Sentient Alien Pet"] : List String)
       then some "mysterious"
       else some "casual") := by
  simp only [determineInteractionStyle]
  simp

/- ## Claim C9: queries never mutate the ledger -/

/-- Claim C9: `generate_dialogue` and `generate_response_options` leave
`relationship_states` exactly as they found it, for every pre-state and every
argument; only `update_player_relationship` modifies it, and it does so by
writing the clamped, appended entry for its NPC. -/
theorem claim_C9 :
    (∀ (e : Engine) (npc_name context : String)
        (hist : Option (List (String × String))) (pc : Option String) (r : Rat)
        (cs hs : Nat),
      (generateDialogueOp e npc_name context hist pc r cs hs).2.relationship_states =
        e.relationship_states)
    ∧ (∀ (e : Engine) (npc_name context stmt : String) (n nick : Nat)
        (ss : List Nat) (fs : Nat → Nat),
      (generateResponseOptionsOp e npc_name context stmt n nick ss fs).2.relationship_states =
        e.relationship_states)
    ∧ (∀ (e : Engine) (n a c : String),
      (updatePlayerRelationshipOp e n a c).2.relationship_states =
        setState e.relationship_states n
          (stepRel ((alookup e.relationship_states n).getD
            { affinity := 50, trust := 50, interactions := [] }) a c)) :=
  ⟨fun _ _ _ _ _ _ _ _ => rfl, fun _ _ _ _ _ _ _ _ => rfl, fun _ _ _ _ => rfl⟩

/- ## Claim C10: greeting totality for well-formed alignments -/

/-- Claim C10: for a known NPC whose alignment splits into at least two
words, the greeting style selection and hence `generate_dialogue` with
context "greeting" are total (the `alignment.split()[1]` access is in
bounds); with fewer than two words the selector's error branch is reached. -/
theorem claim_C10 (e : Engine) (name : String) (p : NPCProfile)
    (hist : Option (List (String × String))) (pc : Option String) (r : Rat)
    (cs hs : Nat) (hfind : findNPC e name = some p) :
    (2 ≤ (pySplitWs p.alignment).length →
      (generateDialogue e name "greeting" hist pc r cs hs).isSome = true
      ∧ determineInteractionStyle p "greeting" hist ≠ none)
    ∧ ((pySplitWs p.alignment).length < 2 →
      determineInteractionStyle p "greeting" hist = none) := by
  constructor
  · intro hlen
    obtain ⟨a, b, rest, hsplit⟩ : ∃ a b rest, pySplitWs p.alignment = a :: b :: rest := by
      cases h1 : pySplitWs p.alignment with
      | nil => rw [h1] at hlen; simp at hlen
      | cons a t =>
        cases t with
        | nil => rw [h1] at hlen; simp at hlen
        | cons b rest => exact ⟨a, b, rest, rfl⟩
    have hstyle : determineInteractionStyle p "greeting" hist =
        some (if b = "Good" then "friendly" else "cautious") := by
      simp [determineInteractionStyle, hsplit]
    refine ⟨?_, by rw [hstyle]; simp⟩
    simp only [generateDialogue, hfind, hstyle, Option.isSome]
  · intro hlen
    have hnone : (pySplitWs p.alignment)[1]? = none := by
      rw [List.getElem?_eq_none_iff]
      omega
    simp [determineInteractionStyle, hnone]

/-- Witness for C10 on the two-word-alignment sample profile. -/
theorem claim_C10_witness :
    (generateDialogue engineD "Dr. Elian Thaumatec" "greeting" none none 0 0 0).isSome = true
    ∧ determineInteractionStyle drElian "greeting" none ≠ none :=
  (claim_C10 engineD "Dr. Elian Thaumatec" drElian none none 0 0 0 rfl).1 (by decide)

/- ## Claim C8 machinery: placeholder-complete template rendering

A template is viewed as a concatenation of brace-free literal segments and
whole placeholder tokens.  `_fill_template`'s sequential `str.replace` calls
act on such a concatenation segment-wise, because every pattern starts with
`\x7b`, literal segments are brace-free, and no placeholder is a prefix of
another. -/

/-- A segment of a template: a brace-free literal or a placeholder token. -/
inductive Piece where
  | lit : List Char → Piece
  | tok : List Char → Piece
deriving DecidableEq, Repr

/-- Flatten a segment decomposition back to the character list. -/
def Piece.flat : Piece → List Char
  | .lit l => l
  | .tok t => t

/-- Flatten a list of segments. -/
def flatP (ps : List Piece) : List Char := (ps.map Piece.flat).flatten

/-- No `\x7b` and no `\x7d` occurs. -/
def braceFreeL (l : List Char) : Bool :=
  l.all (fun c => !(c == openBrace) && !(c == closeBrace))

/-- No `\x7b` occurs. -/
def noLB (l : List Char) : Bool := l.all (fun c => !(c == openBrace))

/-- The nine placeholder tokens that occur in the catalog and in the
replacement table of `_fill_template` (engine.py lines 213-223). -/
def placeholderToks : List (List Char) :=
  ["{npc_name}".data, "{npc_title}".data, "{custom_intro}".data, "{hesitation}".data,
   "{quest_description}".data, "{approval_response}".data, "{disappointment_response}".data,
   "{surprise_response}".data, "{neutral_response}".data]

/-- A well-formed segment: brace-free literal, or one of the nine tokens. -/
def pieceOKb : Piece → Bool
  | .lit l => braceFreeL l
  | .tok t => decide (t ∈ placeholderToks)

/-- The effect of one `str.replace` on a segment: the matching token becomes
the (literal) replacement value; everything else is untouched. -/
def replaceTok (pat val : List Char) : Piece → Piece
  | .lit l => .lit l
  | .tok t => if t = pat then .lit val else .tok t

theorem replaceL_nil (pat val : List Char) : replaceL pat val [] = [] := by
  rw [replaceL]

theorem replaceL_cons (pat val : List Char) (c : Char) (cs : List Char) :
    replaceL pat val (c :: cs) =
      if pat.isEmpty = false ∧ startsWithL pat (c :: cs) = true then
        val ++ replaceL pat val (List.drop pat.length (c :: cs))
      else c :: replaceL pat val cs := by
  rw [replaceL]
  by_cases h : pat.isEmpty = false ∧ startsWithL pat (c :: cs) = true
  · rw [dif_pos h, if_pos h]
  · rw [dif_neg h, if_neg h]

theorem braceFree_noLB (l : List Char) (h : braceFreeL l = true) : noLB l = true := by
  rw [braceFreeL, List.all_eq_true] at h
  rw [noLB, List.all_eq_true]
  intro c hc
  have hh := h c hc
  simp only [Bool.and_eq_true] at hh
  exact hh.1

/-- Scanning a brace-free segment under a `\x7b`-headed pattern copies it. -/
theorem replaceL_skip (pat val pt : List Char) (hpat : pat = openBrace :: pt) :
    ∀ (m rest : List Char), noLB m = true →
      replaceL pat val (m ++ rest) = m ++ replaceL pat val rest := by
  intro m
  induction m with
  | nil => intro rest _; simp
  | cons c cs ih =>
    intro rest h
    rw [noLB, List.all_cons, Bool.and_eq_true] at h
    obtain ⟨hc, hcs⟩ := h
    rw [show (c :: cs) ++ rest = c :: (cs ++ rest) from rfl, replaceL_cons]
    rw [if_neg ?_]
    · rw [ih rest hcs]
      rfl
    · intro hand
      have hsw := hand.2
      rw [hpat] at hsw
      simp only [startsWithL, Bool.and_eq_true, beq_iff_eq] at hsw
      rw [hsw.1] at hc
      simp at hc

/-- Scanning the pattern itself replaces it. -/
theorem replaceL_hit (pat val rest : List Char) (h : pat ≠ []) :
    replaceL pat val (pat ++ rest) = val ++ replaceL pat val rest := by
  cases pat with
  | nil => exact absurd rfl h
  | cons q qs =>
    rw [show (q :: qs) ++ rest = q :: (qs ++ rest) from rfl, replaceL_cons]
    rw [if_pos ⟨rfl, by
      rw [show q :: (qs ++ rest) = (q :: qs) ++ rest from rfl]
      exact startsWithL_append_self (q :: qs) rest⟩]
    congr 1
    rw [show q :: (qs ++ rest) = (q :: qs) ++ rest from rfl]
    rw [List.drop_left]

/-- A pattern that neither is a prefix of `t` nor has `t` as a prefix cannot
match at the start of `t ++ rest`. -/
theorem startsWith_append_false : ∀ (t pa rest : List Char),
    startsWithL pa t = false → startsWithL t pa = false →
    startsWithL pa (t ++ rest) = false := by
  intro t
  induction t with
  | nil =>
    intro pa rest _ h2
    simp [startsWithL] at h2
  | cons c cs ih =>
    intro pa rest h1 h2
    cases pa with
    | nil => simp [startsWithL] at h1
    | cons a as =>
      rw [show (c :: cs) ++ rest = c :: (cs ++ rest) from rfl]
      simp only [startsWithL, Bool.and_eq_false_iff] at h1 h2 ⊢
      by_cases hac : a = c
      · subst hac
        rcases h1 with h1 | h1
        · simp at h1
        · rcases h2 with h2 | h2
          · simp at h2
          · exact Or.inr (ih as rest h1 h2)
      · exact Or.inl (by simp [hac])

/-- Scanning a foreign token (distinct placeholder) copies it wholesale. -/
theorem replaceL_skip_tok (pat val pt : List Char) (hpat : pat = openBrace :: pt)
    (t tt : List Char) (ht : t = openBrace :: tt) (htt : noLB tt = true)
    (h1 : startsWithL pat t = false) (h2 : startsWithL t pat = false) :
    ∀ rest, replaceL pat val (t ++ rest) = t ++ replaceL pat val rest := by
  intro rest
  have hsw : startsWithL pat (t ++ rest) = false := startsWith_append_false t pat rest h1 h2
  subst ht
  rw [show (openBrace :: tt) ++ rest = openBrace :: (tt ++ rest) from rfl, replaceL_cons]
  rw [if_neg ?_]
  · rw [replaceL_skip pat val pt hpat tt rest htt]
    rfl
  · intro hand
    rw [show (openBrace :: (tt ++ rest)) = (openBrace :: tt) ++ rest from rfl] at hand
    rw [hsw] at hand
    exact absurd hand.2 (by simp)

/-- Every placeholder token starts with `\x7b` and has a `\x7b`-free tail. -/
theorem tok_shape : ∀ t ∈ placeholderToks, t.head? = some openBrace ∧ noLB t.tail = true := by
  decide

/-- Distinct placeholder tokens are never prefixes of one another. -/
theorem tok_incompat : ∀ pa ∈ placeholderToks, ∀ t ∈ placeholderToks, pa ≠ t →
    startsWithL pa t = false ∧ startsWithL t pa = false := by
  decide

theorem tok_cons (t : List Char) (h : t ∈ placeholderToks) :
    t = openBrace :: t.tail ∧ noLB t.tail = true := by
  have hs := tok_shape t h
  cases t with
  | nil => simp at hs
  | cons c cs =>
    obtain ⟨h1, h2⟩ := hs
    simp only [List.head?_cons, Option.some_inj] at h1
    subst h1
    exact ⟨rfl, h2⟩

/-- Segment-wise action of one `str.replace` over a decomposition. -/
theorem replace_flat (pat val : List Char) (hpat : pat ∈ placeholderToks) :
    ∀ ps : List Piece, ps.all pieceOKb = true →
      replaceL pat val (flatP ps) = flatP (ps.map (replaceTok pat val)) := by
  obtain ⟨hptc, _⟩ := tok_cons pat hpat
  intro ps
  induction ps with
  | nil => intro _; exact replaceL_nil pat val
  | cons pc ps' ih =>
    intro hOK
    rw [List.all_cons, Bool.and_eq_true] at hOK
    obtain ⟨hpc, hps'⟩ := hOK
    cases pc with
    | lit l =>
      rw [show flatP (Piece.lit l :: ps') = l ++ flatP ps' from rfl]
      rw [replaceL_skip pat val pat.tail hptc l (flatP ps') (braceFree_noLB l hpc)]
      rw [ih hps']
      rfl
    | tok t =>
      have htmem : t ∈ placeholderToks := of_decide_eq_true hpc
      by_cases het : t = pat
      · subst het
        rw [show flatP (Piece.tok t :: ps') = t ++ flatP ps' from rfl]
        rw [replaceL_hit t val (flatP ps') (by rw [hptc]; simp)]
        rw [ih hps']
        rw [show (Piece.tok t :: ps').map (replaceTok t val) =
          Piece.lit val :: ps'.map (replaceTok t val) from by simp [replaceTok]]
        rfl
      · obtain ⟨htc, httl⟩ := tok_cons t htmem
        have hinc := tok_incompat pat hpat t htmem (fun hh => het hh.symm)
        rw [show flatP (Piece.tok t :: ps') = t ++ flatP ps' from rfl]
        rw [replaceL_skip_tok pat val pat.tail hptc t t.tail htc httl hinc.1 hinc.2
          (flatP ps')]
        rw [ih hps']
        rw [show (Piece.tok t :: ps').map (replaceTok pat val) =
          Piece.tok t :: ps'.map (replaceTok pat val) from by simp [replaceTok, het]]
        rfl

theorem pieceOKb_replace (pat val : List Char) (hval : braceFreeL val = true) :
    ∀ pc, pieceOKb pc = true → pieceOKb (replaceTok pat val pc) = true := by
  intro pc h
  cases pc with
  | lit l => exact h
  | tok t =>
    by_cases het : t = pat
    · simp [replaceTok, het, pieceOKb, hval]
    · simpa [replaceTok, het, pieceOKb] using h

theorem all_pieceOKb_replace (pat val : List Char) (hval : braceFreeL val = true)
    (ps : List Piece) (h : ps.all pieceOKb = true) :
    (ps.map (replaceTok pat val)).all pieceOKb = true := by
  rw [List.all_map, List.all_eq_true]
  rw [List.all_eq_true] at h
  intro pc hpc
  exact pieceOKb_replace pat val hval pc (h pc hpc)

/- ## Brace-freeness of the replacement values -/

theorem braceFree_subset (m l : List Char) (hsub : ∀ c ∈ m, c ∈ l)
    (h : braceFreeL l = true) : braceFreeL m = true := by
  rw [braceFreeL, List.all_eq_true] at h ⊢
  intro c hc
  exact h c (hsub c hc)

theorem strip_subset (l : List Char) : ∀ c ∈ stripL l, c ∈ l := by
  intro c hc
  rw [stripL, List.mem_reverse] at hc
  have h1 := (List.dropWhile_sublist _).mem hc
  rw [List.mem_reverse] at h1
  exact (List.dropWhile_sublist _).mem h1

theorem mem_splitCharAux (sep : Char) : ∀ (l acc x : List Char),
    x ∈ splitCharAux sep l acc → ∀ c ∈ x, c ∈ l ∨ c ∈ acc := by
  intro l
  induction l with
  | nil =>
    intro acc x hx c hc
    simp only [splitCharAux, List.mem_singleton] at hx
    subst hx
    exact Or.inr (List.mem_reverse.mp hc)
  | cons a as ih =>
    intro acc x hx c hc
    simp only [splitCharAux] at hx
    by_cases ha : (a == sep) = true
    · rw [if_pos ha] at hx
      rcases List.mem_cons.mp hx with h1 | h1
      · subst h1
        exact Or.inr (List.mem_reverse.mp hc)
      · rcases ih [] x h1 c hc with h2 | h2
        · exact Or.inl (List.mem_cons_of_mem a h2)
        · simp at h2
    · rw [if_neg ha] at hx
      rcases ih (a :: acc) x hx c hc with h2 | h2
      · exact Or.inl (List.mem_cons_of_mem a h2)
      · rcases List.mem_cons.mp h2 with h3 | h3
        · exact Or.inl (h3 ▸ List.mem_cons_self a as)
        · exact Or.inr h3

theorem mem_of_getElem_some {α : Type} (l : List α) (i : Nat) (a : α)
    (h : l[i]? = some a) : a ∈ l := by
  have hi : i < l.length := by
    by_contra hc
    rw [List.getElem?_eq_none_iff.mpr (by omega)] at h
    cases h
  rw [List.getElem?_eq_getElem hi] at h
  cases h
  exact List.getElem_mem hi

theorem split_getD_braceFree (s : String) (sep : Char) (i : Nat)
    (h : braceFreeL s.data = true) :
    braceFreeL ((pySplitChar s sep).getD i "").data = true := by
  rw [List.getD_eq_getElem?_getD]
  cases hi : (pySplitChar s sep)[i]? with
  | none => decide
  | some x =>
    simp only [Option.getD_some]
    have hx := mem_of_getElem_some _ i x hi
    rw [pySplitChar] at hx
    obtain ⟨piece, hpiece, rfl⟩ := List.mem_map.mp hx
    have hsub : ∀ c ∈ piece, c ∈ s.data := by
      intro c hc
      rcases mem_splitCharAux sep s.data [] piece hpiece c hc with h1 | h1
      · exact h1
      · simp at h1
    exact braceFree_subset piece s.data hsub h

theorem snippet_braceFree (p : NPCProfile) (hback : braceFreeL p.backstory.data = true) :
    braceFreeL (generateIntroSnippet p).data = true := by
  rw [generateIntroSnippet]
  by_cases h : p.backstory = ""
  · rw [if_pos h]; decide
  · rw [if_neg h]
    by_cases hlen : (pySplitChar p.backstory '.').length > 2
    · rw [if_pos hlen, strData_append, braceFreeL, List.all_append]
      have hs : braceFreeL (stripL ((pySplitChar p.backstory '.').getD 1 "").data) = true := by
        apply braceFree_subset _ ((pySplitChar p.backstory '.').getD 1 "").data
          (strip_subset _)
        exact split_getD_braceFree p.backstory '.' 1 hback
      rw [braceFreeL] at hs
      rw [show (String.mk (stripL ((pySplitChar p.backstory '.').getD 1 "").data)).data =
        stripL ((pySplitChar p.backstory '.').getD 1 "").data from rfl]
      rw [hs]
      decide
    · rw [if_neg hlen, strData_append, braceFreeL, List.all_append]
      have hs := split_getD_braceFree p.backstory '.' 0 hback
      rw [braceFreeL] at hs
      rw [hs]
      decide

theorem customIntro_braceFree (p : NPCProfile) (halign : braceFreeL p.alignment.data = true)
    (hback : braceFreeL p.backstory.data = true) :
    braceFreeL (customIntro p).data = true := by
  rw [customIntro, strData_append, strData_append, strData_append]
  rw [braceFreeL, List.all_append, List.all_append, List.all_append]
  rw [braceFreeL] at halign
  rw [halign]
  have hs := snippet_braceFree p hback
  rw [braceFreeL] at hs
  rw [hs]
  decide

theorem hesitation_braceFree (hes : Nat) :
    braceFreeL (pyChoice hes hesitations).data = true := by
  show braceFreeL ((hesitations.getD (hes % hesitations.length) "")).data = true
  have h3 : hes % hesitations.length < 3 := Nat.mod_lt _ (by decide)
  have : hes % hesitations.length = 0 ∨ hes % hesitations.length = 1 ∨
      hes % hesitations.length = 2 := by omega
  rcases this with h | h | h <;> rw [h] <;> decide

/- ## Segment-level rendering and resolution -/

/-- The nine successive segment-level replacements of `_fill_template`, in
the dict's insertion order. -/
def fillPieces (p : NPCProfile) (hes : Nat) (ps : List Piece) : List Piece :=
  ((((((((ps.map (replaceTok "{npc_name}".data p.name.data)).map
    (replaceTok "{npc_title}".data p.className.data)).map
    (replaceTok "{custom_intro}".data (customIntro p).data)).map
    (replaceTok "{hesitation}".data (pyChoice hes hesitations).data)).map
    (replaceTok "{quest_description}".data
      "[Quest description would be dynamically generated]".data)).map
    (replaceTok "{approval_response}".data "This shows your character.".data)).map
    (replaceTok "{disappointment_response}".data "This wasn't what I expected.".data)).map
    (replaceTok "{surprise_response}".data "You continue to surprise me.".data)).map
    (replaceTok "{neutral_response}".data "Let's see where this leads us.".data)

/-- `_fill_template` acts segment-wise on any well-formed decomposition. -/
theorem fill_data (p : NPCProfile) (hes : Nat) (ps : List Piece)
    (hOK : ps.all pieceOKb = true)
    (hname : braceFreeL p.name.data = true) (hclass : braceFreeL p.className.data = true)
    (hintro : braceFreeL (customIntro p).data = true) :
    (fillTemplate (String.mk (flatP ps)) p hes).data = flatP (fillPieces p hes ps) := by
  have hhes := hesitation_braceFree hes
  have o1 := all_pieceOKb_replace "{npc_name}".data p.name.data hname ps hOK
  have o2 := all_pieceOKb_replace "{npc_title}".data p.className.data hclass _ o1
  have o3 := all_pieceOKb_replace "{custom_intro}".data (customIntro p).data hintro _ o2
  have o4 := all_pieceOKb_replace "{hesitation}".data (pyChoice hes hesitations).data hhes _ o3
  have o5 := all_pieceOKb_replace "{quest_description}".data
    "[Quest description would be dynamically generated]".data (by decide) _ o4
  have o6 := all_pieceOKb_replace "{approval_response}".data
    "This shows your character.".data (by decide) _ o5
  have o7 := all_pieceOKb_replace "{disappointment_response}".data
    "This wasn't what I expected.".data (by decide) _ o6
  have o8 := all_pieceOKb_replace "{surprise_response}".data
    "You continue to surprise me.".data (by decide) _ o7
  show replaceL "{neutral_response}".data "Let's see where this leads us.".data
    (replaceL "{surprise_response}".data "You continue to surprise me.".data
    (replaceL "{disappointment_response}".data "This wasn't what I expected.".data
    (replaceL "{approval_response}".data "This shows your character.".data
    (replaceL "{quest_description}".data
      "[Quest description would be dynamically generated]".data
    (replaceL "{hesitation}".data (pyChoice hes hesitations).data
    (replaceL "{custom_intro}".data (customIntro p).data
    (replaceL "{npc_title}".data p.className.data
    (replaceL "{npc_name}".data p.name.data (flatP ps))))))))) = flatP (fillPieces p hes ps)
  rw [replace_flat "{npc_name}".data p.name.data (by decide) ps hOK]
  rw [replace_flat "{npc_title}".data p.className.data (by decide) _ o1]
  rw [replace_flat "{custom_intro}".data (customIntro p).data (by decide) _ o2]
  rw [replace_flat "{hesitation}".data (pyChoice hes hesitations).data (by decide) _ o3]
  rw [replace_flat "{quest_description}".data
    "[Quest description would be dynamically generated]".data (by decide) _ o4]
  rw [replace_flat "{approval_response}".data "This shows your character.".data
    (by decide) _ o5]
  rw [replace_flat "{disappointment_response}".data "This wasn't what I expected.".data
    (by decide) _ o6]
  rw [replace_flat "{surprise_response}".data "You continue to surprise me.".data
    (by decide) _ o7]
  rw [replace_flat "{neutral_response}".data "Let's see where this leads us.".data
    (by decide) _ o8]
  rfl

/-- A fully resolved segment: a brace-free literal. -/
def resolvedb : Piece → Bool
  | .lit l => braceFreeL l
  | .tok _ => false

theorem rT_lit (pat val l : List Char) : replaceTok pat val (.lit l) = .lit l := rfl

theorem rT_eq (pat val : List Char) : replaceTok pat val (.tok pat) = .lit val := by
  simp [replaceTok]

theorem rT_ne (pat val t : List Char) (h : t ≠ pat) :
    replaceTok pat val (.tok t) = .tok t := by
  simp [replaceTok, h]

theorem piece_resolve (p : NPCProfile) (hes : Nat)
    (hname : braceFreeL p.name.data = true) (hclass : braceFreeL p.className.data = true)
    (hintro : braceFreeL (customIntro p).data = true) :
    ∀ pc, pieceOKb pc = true →
      resolvedb (replaceTok "{neutral_response}".data "Let's see where this leads us.".data
        (replaceTok "{surprise_response}".data "You continue to surprise me.".data
        (replaceTok "{disappointment_response}".data "This wasn't what I expected.".data
        (replaceTok "{approval_response}".data "This shows your character.".data
        (replaceTok "{quest_description}".data
          "[Quest description would be dynamically generated]".data
        (replaceTok "{hesitation}".data (pyChoice hes hesitations).data
        (replaceTok "{custom_intro}".data (customIntro p).data
        (replaceTok "{npc_title}".data p.className.data
        (replaceTok "{npc_name}".data p.name.data pc))))))))) = true := by
  intro pc h
  cases pc with
  | lit l => exact h
  | tok t =>
    have htmem : t ∈ placeholderToks := of_decide_eq_true h
    have hhes := hesitation_braceFree hes
    simp only [placeholderToks, List.mem_cons, List.not_mem_nil, or_false] at htmem
    rcases htmem with rfl | rfl | rfl | rfl | rfl | rfl | rfl | rfl | rfl
    · rw [rT_eq, rT_lit, rT_lit, rT_lit, rT_lit, rT_lit, rT_lit, rT_lit, rT_lit]
      exact hname
    · rw [rT_ne _ _ _ (by decide), rT_eq, rT_lit, rT_lit, rT_lit, rT_lit, rT_lit,
        rT_lit, rT_lit]
      exact hclass
    · rw [rT_ne _ _ _ (by decide), rT_ne _ _ _ (by decide), rT_eq, rT_lit, rT_lit,
        rT_lit, rT_lit, rT_lit, rT_lit]
      exact hintro
    · rw [rT_ne _ _ _ (by decide), rT_ne _ _ _ (by decide), rT_ne _ _ _ (by decide),
        rT_eq, rT_lit, rT_lit, rT_lit, rT_lit, rT_lit]
      exact hhes
    · rw [rT_ne _ _ _ (by decide), rT_ne _ _ _ (by decide), rT_ne _ _ _ (by decide),
        rT_ne _ _ _ (by decide), rT_eq, rT_lit, rT_lit, rT_lit, rT_lit]
      decide
    · rw [rT_ne _ _ _ (by decide), rT_ne _ _ _ (by decide), rT_ne _ _ _ (by decide),
        rT_ne _ _ _ (by decide), rT_ne _ _ _ (by decide), rT_eq, rT_lit, rT_lit, rT_lit]
      decide
    · rw [rT_ne _ _ _ (by decide), rT_ne _ _ _ (by decide), rT_ne _ _ _ (by decide),
        rT_ne _ _ _ (by decide), rT_ne _ _ _ (by decide), rT_ne _ _ _ (by decide),
        rT_eq, rT_lit, rT_lit]
      decide
    · rw [rT_ne _ _ _ (by decide), rT_ne _ _ _ (by decide), rT_ne _ _ _ (by decide),
        rT_ne _ _ _ (by decide), rT_ne _ _ _ (by decide), rT_ne _ _ _ (by decide),
        rT_ne _ _ _ (by decide), rT_eq, rT_lit]
      decide
    · rw [rT_ne _ _ _ (by decide), rT_ne _ _ _ (by decide), rT_ne _ _ _ (by decide),
        rT_ne _ _ _ (by decide), rT_ne _ _ _ (by decide), rT_ne _ _ _ (by decide),
        rT_ne _ _ _ (by decide), rT_ne _ _ _ (by decide), rT_eq]
      decide

theorem fillPieces_resolved (p : NPCProfile) (hes : Nat) (ps : List Piece)
    (hOK : ps.all pieceOKb = true)
    (hname : braceFreeL p.name.data = true) (hclass : braceFreeL p.className.data = true)
    (hintro : braceFreeL (customIntro p).data = true) :
    (fillPieces p hes ps).all resolvedb = true := by
  rw [fillPieces, List.all_map, List.all_map, List.all_map, List.all_map, List.all_map,
    List.all_map, List.all_map, List.all_map, List.all_map, List.all_eq_true]
  rw [List.all_eq_true] at hOK
  intro pc hpc
  exact piece_resolve p hes hname hclass hintro pc (hOK pc hpc)

theorem flat_resolved_braceFree : ∀ ps : List Piece,
    ps.all resolvedb = true → braceFreeL (flatP ps) = true := by
  intro ps
  induction ps with
  | nil => intro _; decide
  | cons pc ps' ih =>
    intro h
    rw [List.all_cons, Bool.and_eq_true] at h
    obtain ⟨hpc, hps'⟩ := h
    cases pc with
    | lit l =>
      rw [show flatP (Piece.lit l :: ps') = l ++ flatP ps' from rfl]
      rw [braceFreeL, List.all_append]
      rw [show resolvedb (Piece.lit l) = braceFreeL l from rfl, braceFreeL] at hpc
      rw [hpc]
      have := ih hps'
      rw [braceFreeL] at this
      rw [this]
      rfl
    | tok t => simp [resolvedb] at hpc

/-- A `\x7b`-headed pattern cannot occur in a brace-free text. -/
theorem containsL_of_braceFree (pat : List Char) (hpat : pat.head? = some openBrace) :
    ∀ hay : List Char, braceFreeL hay = true → containsL pat hay = false := by
  obtain ⟨pt, rfl⟩ : ∃ pt, pat = openBrace :: pt := by
    cases pat with
    | nil => simp at hpat
    | cons c cs =>
      simp only [List.head?_cons, Option.some_inj] at hpat
      exact ⟨cs, by rw [hpat]⟩
  intro hay
  induction hay with
  | nil => intro _; rfl
  | cons c cs ih =>
    intro h
    rw [braceFreeL, List.all_cons, Bool.and_eq_true] at h
    obtain ⟨hc, hcs⟩ := h
    simp only [Bool.and_eq_true, Bool.not_eq_true', beq_eq_false_iff_ne] at hc
    have hcne : (openBrace == c) = false :=
      beq_eq_false_iff_ne.mpr (fun hh => hc.1 hh.symm)
    rw [show containsL (openBrace :: pt) (c :: cs) =
      (startsWithL (openBrace :: pt) (c :: cs) || containsL (openBrace :: pt) cs)
      from rfl]
    rw [show startsWithL (openBrace :: pt) (c :: cs) =
      ((openBrace == c) && startsWithL pt cs) from rfl]
    rw [hcne, Bool.false_and, Bool.false_or]
    exact ih hcs

theorem alookup_mem {α : Type} : ∀ (l : List (String × α)) (k : String) (v : α),
    alookup l k = some v → (k, v) ∈ l := by
  intro l
  induction l with
  | nil => intro k v h; cases h
  | cons p ps ih =>
    intro k v h
    rw [alookup] at h
    by_cases hp : p.1 = k
    · rw [if_pos hp] at h
      cases h
      rw [← hp]
      exact List.mem_cons_self p ps
    · rw [if_neg hp] at h
      exact List.mem_cons_of_mem p (ih k v h)

/-- The mood prefix is a brace-free segment prepended to the template. -/
theorem applyMood_decomp (t mood : String) :
    ∃ pre : List Char, braceFreeL pre = true ∧
      (applyMoodModifiers t mood).data = pre ++ t.data := by
  rw [applyMoodModifiers]
  cases h : alookup moodModifiers mood with
  | none => exact ⟨[], by decide, rfl⟩
  | some md =>
    have hmem := alookup_mem moodModifiers mood md h
    simp only [moodModifiers, List.mem_cons, List.not_mem_nil, or_false,
      Prod.mk.injEq] at hmem
    rcases hmem with ⟨_, rfl⟩ | ⟨_, rfl⟩ | ⟨_, rfl⟩ | ⟨_, rfl⟩
    · refine ⟨("[" ++ "expansive and enthusiastic" ++ "] ").data, by decide, ?_⟩
      rw [strData_append]
    · refine ⟨("[" ++ "slow and melancholic" ++ "] ").data, by decide, ?_⟩
      rw [strData_append]
    · refine ⟨("[" ++ "short and intense" ++ "] ").data, by decide, ?_⟩
      rw [strData_append]
    · refine ⟨("[" ++ "questioning and reflective" ++ "] ").data, by decide, ?_⟩
      rw [strData_append]

/-- Every catalog template decomposes into brace-free literals and
placeholder tokens. -/
theorem tpl_decomp (context sty : String) (styles : List (String × String)) (t : String)
    (h1 : alookup promptTemplates context = some styles)
    (h2 : alookup styles sty = some t) :
    ∃ ps : List Piece, flatP ps = t.data ∧ ps.all pieceOKb = true := by
  have hm1 := alookup_mem _ _ _ h1
  simp only [promptTemplates, List.mem_cons, List.not_mem_nil, or_false,
    Prod.mk.injEq] at hm1
  rcases hm1 with ⟨_, rfl⟩ | ⟨_, rfl⟩ | ⟨_, rfl⟩ <;>
      have hm2 := alookup_mem _ _ _ h2 <;>
      simp only [List.mem_cons, List.not_mem_nil, or_false, Prod.mk.injEq] at hm2 <;>
      rcases hm2 with ⟨_, rfl⟩ | ⟨_, rfl⟩ | ⟨_, rfl⟩ | ⟨_, rfl⟩
  · exact ⟨[.lit "Greetings, traveler. I am ".data, .tok "{npc_name}".data,
      .lit ", ".data, .tok "{npc_title}".data, .lit ". ".data,
      .tok "{custom_intro}".data], by decide, by decide⟩
  · exact ⟨[.lit "Hello! Great to see you here! I'm ".data, .tok "{npc_name}".data,
      .lit ". ".data, .tok "{custom_intro}".data], by decide, by decide⟩
  · exact ⟨[.lit "Hmm... ".data, .tok "{hesitation}".data, .lit " I'm ".data,
      .tok "{npc_name}".data, .lit ". ".data, .tok "{custom_intro}".data],
      by decide, by decide⟩
  · exact ⟨[.lit "Wow! A new face! I'm ".data, .tok "{npc_name}".data, .lit "! ".data,
      .tok "{custom_intro}".data], by decide, by decide⟩
  · exact ⟨[.lit "I need your help immediately. ".data, .tok "{quest_description}".data,
      .lit " Time is running out!".data], by decide, by decide⟩
  · exact ⟨[.lit "I have an... interesting proposal. ".data,
      .tok "{quest_description}".data,
      .lit " There's more to this than meets the eye.".data], by decide, by decide⟩
  · exact ⟨[.lit "If you have time, could you help me with something? ".data,
      .tok "{quest_description}".data, .lit " No rush.".data], by decide, by decide⟩
  · exact ⟨[.lit "I'm looking for someone with your skills. ".data,
      .tok "{quest_description}".data, .lit " Few could manage this.".data],
      by decide, by decide⟩
  · exact ⟨[.lit "Excellent choice! ".data, .tok "{approval_response}".data],
      by decide, by decide⟩
  · exact ⟨[.tok "{disappointment_response}".data,
      .lit " I expected more from you.".data], by decide, by decide⟩
  · exact ⟨[.lit "Interesting... ".data, .tok "{surprise_response}".data,
      .lit " I didn't expect that.".data], by decide, by decide⟩
  · exact ⟨[.lit "I understand your decision. ".data, .tok "{neutral_response}".data],
      by decide, by decide⟩

/-- Claim C8: for every (context, style) pair present in the catalog, every
mood, and every profile whose text fields are ordinary brace-free text, the
rendered dialogue contains no brace at all — in particular no unresolved
placeholder token `\x7bnpc_name\x7d`, `\x7bcustom_intro\x7d`, etc.: every
placeholder occurring in a catalog template has a substitution rule. -/
theorem claim_C8 (context sty mood : String) (styles : List (String × String)) (t : String)
    (p : NPCProfile) (hes : Nat)
    (h1 : alookup promptTemplates context = some styles)
    (h2 : alookup styles sty = some t)
    (hname : braceFreeL p.name.data = true) (hclass : braceFreeL p.className.data = true)
    (halign : braceFreeL p.alignment.data = true)
    (hback : braceFreeL p.backstory.data = true) :
    braceFreeL (fillTemplate (applyMoodModifiers t mood) p hes).data = true
    ∧ ∀ pat ∈ placeholderToks,
        containsL pat (fillTemplate (applyMoodModifiers t mood) p hes).data = false := by
  have hintro : braceFreeL (customIntro p).data = true := customIntro_braceFree p halign hback
  obtain ⟨ps, hflat, hOK⟩ := tpl_decomp context sty styles t h1 h2
  obtain ⟨pre, hpre, hmood⟩ := applyMood_decomp t mood
  have hall : (Piece.lit pre :: ps).all pieceOKb = true := by
    rw [List.all_cons, Bool.and_eq_true]
    exact ⟨hpre, hOK⟩
  have hflat2 : flatP (Piece.lit pre :: ps) = (applyMoodModifiers t mood).data := by
    rw [show flatP (Piece.lit pre :: ps) = pre ++ flatP ps from rfl, hflat, hmood]
  have hfd := fill_data p hes (Piece.lit pre :: ps) hall hname hclass hintro
  have he : String.mk (flatP (Piece.lit pre :: ps)) = applyMoodModifiers t mood := by
    rw [hflat2]
  rw [he] at hfd
  have hres := fillPieces_resolved p hes (Piece.lit pre :: ps) hall hname hclass hintro
  have hbf : braceFreeL (fillTemplate (applyMoodModifiers t mood) p hes).data = true := by
    rw [hfd]
    exact flat_resolved_braceFree _ hres
  refine ⟨hbf, ?_⟩
  intro pat hp
  exact containsL_of_braceFree pat (tok_shape pat hp).1 _ hbf

/-- Witness for C8 at a concrete catalog entry, mood and profile. -/
theorem claim_C8_witness :
    braceFreeL (fillTemplate (applyMoodModifiers
        "Hello! Great to see you here! I'm {npc_name}. {custom_intro}" "happy")
      drElian 0).data = true
    ∧ ∀ pat ∈ placeholderToks,
        containsL pat (fillTemplate (applyMoodModifiers
            "Hello! Great to see you here! I'm {npc_name}. {custom_intro}" "happy")
          drElian 0).data = false :=
  claim_C8 "greeting" "friendly" "happy" _ _ drElian 0 rfl rfl
    (by decide) (by decide) (by decide) (by decide)
